import Mathlib

/-!
Shallow embedding of the response-handling layer of `snow` (the module
`snow/request/response/__init__.py`): JSON values, the wrapped HTTP response,
the envelope schema, the `load` / `_handle_error` control flow, and the
read-view operations (`__len__`, `__getitem__`, `__repr__`).
-/

namespace Snowstorm

/-- JSON values, as produced by the transport's JSON-parse operation
(`ClientResponse.json`). Objects are association lists keyed by strings. -/
inductive JSON where
  | null
  | bool (b : Bool)
  | num (n : Int)
  | str (s : String)
  | arr (elems : List JSON)
  | obj (members : List (String × JSON))

/-- `isinstance(data, dict)` on a JSON value. -/
def JSON.isObj : JSON → Bool
  | .obj _ => true
  | _ => false

/-- Python truthiness of a JSON value (`bool(data)`). -/
def JSON.truthy : JSON → Bool
  | .null => false
  | .bool b => b
  | .num n => n != 0
  | .str s => !s.isEmpty
  | .arr xs => !xs.isEmpty
  | .obj kvs => !kvs.isEmpty

/-- The exceptions that can escape `Response.load`, each carrying what the
source attaches to it.  `RequestError`, `ServerError` and
`UnexpectedResponseContent` come from `snow.exceptions` and carry
`(message, status)`; `jsonDecodeError` models a body the JSON parser rejects
(the decode exception propagating out of `self.json()`); `keyError` models a
Python `KeyError` on a mapping access; `validationError` models a marshmallow
schema-validation failure. -/
inductive SnowError where
  | requestError (msg : String) (status : Nat)
  | serverError (msg : String) (status : Nat)
  | unexpectedResponseContent (msg : String) (status : Nat)
  | jsonDecodeError
  | keyError (key : String)
  | validationError

/-- The wrapped HTTP response.  `jsonBody` is the result of the transport's
JSON-parse operation on the body: `none` models a body the parser rejects,
`some v` a body that parses to the value `v`.  `text` is the raw body text
(`await self.text()`). -/
structure Response where
  status : Nat
  reason : String
  urlPath : String
  text : String
  jsonBody : Option JSON

/-- The transport-level exception raised by `raise_for_status`, carrying the
response's reason phrase as `message` and its status as `code`. -/
structure ClientResponseError where
  message : String
  code : Nat

/-- aiohttp's `ClientResponse.raise_for_status`: raises `ClientResponseError`
built from the response's status and reason when the status is 400 or above,
and returns normally otherwise. -/
def Response.raise_for_status (r : Response) : Except ClientResponseError Unit :=
  if 400 ≤ r.status then .error ⟨r.reason, r.status⟩ else .ok ()

/-- Embedding of `Response._handle_error`: try `raise_for_status`; on a
transport error raise `ServerError (exc.message, exc.code)`; if no HTTP-level
error was signalled, raise `UnexpectedResponseContent` with the raw body text
in the message and status forced to 200. -/
def Response.handle_error (r : Response) : Except SnowError Unit :=
  match r.raise_for_status with
  | .error exc => .error (.serverError exc.message exc.code)
  | .ok _ => .error (.unexpectedResponseContent
      ("Unexpected response received from server: " ++ r.text) 200)

/-- The payload of a validated `error` envelope member: `message` is a string,
`detail` a string or null; `detail = none` covers both an absent key and an
explicit null. -/
structure ErrorContent where
  message : String
  detail : Option String

/-- The output of loading a body through `ContentSchema`: the recognized
top-level members, each absent when the key was missing from the body. -/
structure Content where
  result : Option JSON
  error : Option ErrorContent

/-- Modelled from the spec: `ErrorSchema` lives in
`snow/request/response/schemas.py`, which is not under `src/`.  Per the spec's
wire format, the failure member is `{"message": <string>, "detail":
<string|null>}`; a value of any other shape fails validation. -/
def errorSchemaLoad (v : JSON) : Option ErrorContent :=
  match v with
  | .obj kvs =>
    match kvs.lookup "message" with
    | some (.str m) =>
      match kvs.lookup "detail" with
      | none => some ⟨m, none⟩
      | some .null => some ⟨m, none⟩
      | some (.str d) => some ⟨m, some d⟩
      | some _ => none
    | _ => none
  | _ => none

/-- Modelled from the spec: `ContentSchema` lives in
`snow/request/response/schemas.py`, which is not under `src/`.  Per the spec,
the recognized top-level keys are `result` (raw payload) and `error` (nested
`ErrorSchema`), and unknown top-level fields are ignored, not rejected
(`unknown=EXCLUDE`). -/
def contentSchemaLoad (data : JSON) : Except SnowError Content :=
  match data with
  | .obj kvs =>
    match kvs.lookup "error" with
    | none => .ok ⟨kvs.lookup "result", none⟩
    | some ev =>
      match errorSchemaLoad ev with
      | some ec => .ok ⟨kvs.lookup "result", some ec⟩
      | none => .error .validationError
  | _ => .error .validationError

/-- Python truthiness of the validated `detail` value (absent / null and the
empty string are falsy). -/
def truthyDetail : Option String → Bool
  | none => false
  | some s => !s.isEmpty

/-- The message built for `RequestError` in `load`:
`"{message}: {detail}"` when `err["detail"]` is truthy, `message` alone
otherwise. -/
def requestErrorMsg (ec : ErrorContent) : String :=
  if truthyDetail ec.detail then ec.message ++ ": " ++ ec.detail.getD ""
  else ec.message

/-- Outcome of a call to `load`: the `data` attribute afterwards
(`none` = never assigned) and the exception raised (`none` = returned
normally). -/
structure LoadResult where
  data : Option JSON
  err : Option SnowError

/-- The tail of `Response.load` that runs once the body reached the envelope
validation: load through `ContentSchema`, raise `RequestError` when the
envelope has an `error` member, otherwise assign `content["result"]` to
`data` (a missing `result` key raises `KeyError`). -/
def Response.loadEnvelope (r : Response) (data : JSON) : LoadResult :=
  match contentSchemaLoad data with
  | .error e => ⟨none, some e⟩
  | .ok content =>
    match content.error with
    | some ec => ⟨none, some (.requestError (requestErrorMsg ec) r.status)⟩
    | none =>
      match content.result with
      | some x => ⟨some x, none⟩
      | none => ⟨none, some (.keyError "result")⟩

/-- Embedding of `Response.load`: parse the body as JSON; when the parsed
value is not a mapping, return an empty mapping at status 204 and otherwise
delegate to `_handle_error`; when it is a mapping (or `_handle_error` were
ever to return), validate the envelope. -/
def Response.load (r : Response) : LoadResult :=
  match r.jsonBody with
  | none => ⟨none, some .jsonDecodeError⟩
  | some data =>
    if data.isObj then r.loadEnvelope data
    else if r.status = 204 then ⟨some (.obj []), none⟩
    else
      match r.handle_error with
      | .error e => ⟨none, some e⟩
      | .ok _ => r.loadEnvelope data

/-- A Python subscript: an integer index or a string key. -/
inductive Key where
  | idx (i : Int)
  | key (s : String)

/-- The exception a Python subscript `data[k]` raises when it fails. -/
inductive SubscriptError where
  | indexError
  | keyError (s : String)
  | typeError

/-- Python subscript `data[k]` on the decoded payload: list indexing (with
negative indices counting from the end, and `IndexError` out of range), or
mapping lookup (`KeyError` when the key is missing); subscripting any other
payload raises `TypeError`. -/
def pySubscript (data : JSON) (k : Key) : Except SubscriptError JSON :=
  match data, k with
  | .arr xs, .idx i =>
    let j := if i < 0 then i + (xs.length : Int) else i
    if 0 ≤ j ∧ j < (xs.length : Int) then .ok (xs.getD j.toNat .null)
    else .error .indexError
  | .obj kvs, .key s =>
    match kvs.lookup s with
    | some v => .ok v
    | none => .error (.keyError s)
  | .obj _, .idx i => .error (.keyError (toString i))
  | _, _ => .error .typeError

/-- Embedding of `Response.__getitem__`: `return self.data[key]`. -/
def Response.getitem (data : JSON) (k : Key) : Except SubscriptError JSON :=
  pySubscript data k

/-- Embedding of `Response.__len__`: the list length when `data` is a list,
1 otherwise. -/
def Response.len (data : JSON) : Nat :=
  match data with
  | .arr xs => xs.length
  | _ => 1

/-- The content-overview part of `Response.__repr__`: lists report their
length, a truthy (non-empty) dict reports a contained object, anything else
is unknown. -/
def contentOverview (data : JSON) : String :=
  match data with
  | .arr xs => "Content: List of " ++ toString xs.length ++ " items"
  | d =>
    if d.truthy && d.isObj then "Content: Object contained in a dictionary"
    else "Content: Unknown"

/-- Raised by Python when reading an attribute that was never assigned. -/
inductive AttributeError where
  | attributeError

/-- Embedding of `Response.__repr__`.  `idHex` stands for `hex(id(self))` and
`data` for the `data` attribute, `none` when it was never assigned — reading
it then raises `AttributeError`. -/
def Response.reprStr (r : Response) (idHex : String) (data : Option JSON) :
    Except AttributeError String :=
  match data with
  | none => .error .attributeError
  | some d => .ok ("<Response " ++ idHex ++ " " ++ r.urlPath ++ " ["
      ++ toString r.status ++ " " ++ r.reason ++ "] " ++ contentOverview d ++ ">")

/-- C1: for every response whose parsed JSON body is a mapping containing a
`result` key and no `error` key, `load` assigns the value of `result` to
`data` exactly and raises nothing, any other top-level keys being ignored. -/
theorem c1_result_assigned (r : Response) (kvs : List (String × JSON)) (x : JSON)
    (hb : r.jsonBody = some (.obj kvs))
    (he : kvs.lookup "error" = none)
    (hr : kvs.lookup "result" = some x) :
    r.load = ⟨some x, none⟩ := by
  simp [Response.load, hb, JSON.isObj, Response.loadEnvelope, contentSchemaLoad, he, hr]

/-- Witness for C1 at a concrete response with an unrecognized extra key. -/
theorem c1_result_assigned_witness :
    Response.load ⟨200, "OK", "/api/now/table", "",
        some (.obj [("result", .num 5), ("extra", .null)])⟩
      = ⟨some (.num 5), none⟩ :=
  c1_result_assigned _ _ _ rfl rfl rfl

/-- C2: for every response whose parsed JSON body carries an `error` member
with message `m`, `load` raises `RequestError` with message `m ++ ": " ++ d`
when the detail `d` is present and non-empty, and message `m` alone when the
detail is absent, null, or empty; in both cases the carried status is the
response's HTTP status. -/
theorem c2_request_error (r : Response) (kvs ekvs : List (String × JSON)) (m : String)
    (hb : r.jsonBody = some (.obj kvs))
    (he : kvs.lookup "error" = some (.obj ekvs))
    (hm : ekvs.lookup "message" = some (.str m)) :
    (∀ d, ekvs.lookup "detail" = some (.str d) → d ≠ "" →
      r.load = ⟨none, some (.requestError (m ++ ": " ++ d) r.status)⟩)
    ∧ (ekvs.lookup "detail" = none ∨ ekvs.lookup "detail" = some .null
        ∨ ekvs.lookup "detail" = some (.str "") →
      r.load = ⟨none, some (.requestError m r.status)⟩) := by
  constructor
  · intro d hd hne
    have hde : d.isEmpty = false := by
      cases hh : d.isEmpty
      · rfl
      · exact absurd ((String.isEmpty_iff d).mp hh) hne
    simp [Response.load, hb, JSON.isObj, Response.loadEnvelope, contentSchemaLoad, he,
      errorSchemaLoad, hm, hd, requestErrorMsg, truthyDetail, hde]
  · have h0 : ("" : String).isEmpty = true := by decide
    rintro (hd | hd | hd) <;>
      simp [Response.load, hb, JSON.isObj, Response.loadEnvelope, contentSchemaLoad, he,
        errorSchemaLoad, hm, hd, requestErrorMsg, truthyDetail, h0]

/-- Witness for C2 at concrete responses: one truthy detail, one null detail. -/
theorem c2_request_error_witness :
    Response.load ⟨400, "Bad Request", "/t", "",
        some (.obj [("error", .obj [("message", .str "Bad query"), ("detail", .str "oops")])])⟩
      = ⟨none, some (.requestError ("Bad query" ++ ": " ++ "oops") 400)⟩
    ∧ Response.load ⟨403, "Forbidden", "/t", "",
        some (.obj [("error", .obj [("message", .str "Invalid table"), ("detail", .null)])])⟩
      = ⟨none, some (.requestError "Invalid table" 403)⟩ :=
  ⟨(c2_request_error
      ⟨400, "Bad Request", "/t", "",
        some (.obj [("error", .obj [("message", .str "Bad query"), ("detail", .str "oops")])])⟩
      [("error", .obj [("message", .str "Bad query"), ("detail", .str "oops")])]
      [("message", .str "Bad query"), ("detail", .str "oops")]
      "Bad query" rfl rfl rfl).1 "oops" rfl (by decide),
   (c2_request_error
      ⟨403, "Forbidden", "/t", "",
        some (.obj [("error", .obj [("message", .str "Invalid table"), ("detail", .null)])])⟩
      [("error", .obj [("message", .str "Invalid table"), ("detail", .null)])]
      [("message", .str "Invalid table"), ("detail", .null)]
      "Invalid table" rfl rfl rfl).2 (Or.inr (Or.inl rfl))⟩

/-- C3 as stated is false: a 204 response whose body parses to a JSON object
skips the no-content short-circuit; here `load` assigns the `result` value,
which is not an empty mapping. -/
theorem c3_counterexample :
    Response.load ⟨204, "No Content", "/t", "", some (.obj [("result", .bool true)])⟩
      = ⟨some (.bool true), none⟩
    ∧ JSON.bool true ≠ JSON.obj [] :=
  ⟨rfl, fun h => JSON.noConfusion h⟩

/-- C3 (amended): for every response with status 204 whose body parses to a
value that is not a mapping, `load` sets `data` to an empty mapping and raises
nothing. -/
theorem c3_no_content (r : Response) (v : JSON)
    (hs : r.status = 204) (hb : r.jsonBody = some v) (hv : v.isObj = false) :
    r.load = ⟨some (.obj []), none⟩ := by
  simp [Response.load, hb, hv, hs]

/-- Witness for C3 (amended) at a concrete 204 response with a null body. -/
theorem c3_no_content_witness :
    Response.load ⟨204, "No Content", "/t", "", some .null⟩ = ⟨some (.obj []), none⟩ :=
  c3_no_content _ .null rfl rfl rfl

/-- C4: for every response whose body parses to a non-mapping value and whose
status is at least 400, `load` raises `ServerError` carrying the response's
status (and its reason phrase as the message). -/
theorem c4_server_error (r : Response) (v : JSON)
    (hb : r.jsonBody = some v) (hv : v.isObj = false) (hs : 400 ≤ r.status) :
    r.load = ⟨none, some (.serverError r.reason r.status)⟩ := by
  have h204 : ¬ r.status = 204 := by omega
  simp [Response.load, hb, hv, h204, Response.handle_error, Response.raise_for_status, hs]

/-- Witness for C4 at a concrete 500 response with a plain-string body. -/
theorem c4_server_error_witness :
    Response.load ⟨500, "Internal Server Error", "/t", "boom", some (.str "boom")⟩
      = ⟨none, some (.serverError "Internal Server Error" 500)⟩ :=
  c4_server_error _ (.str "boom") rfl rfl (by decide)

/-- C5 as stated is false at status 204: the body is not a mapping and the
status is below 400, yet `load` returns successfully instead of raising
`UnexpectedResponseContent`. -/
theorem c5_counterexample :
    Response.load ⟨204, "No Content", "/t", "x", some .null⟩ = ⟨some (.obj []), none⟩ :=
  rfl

/-- C5 (amended): for every response whose body parses to a non-mapping value
and whose status is below 400 and different from 204, `load` raises
`UnexpectedResponseContent` with status forced to 200 and the raw body text
contained in the message. -/
theorem c5_unexpected_content (r : Response) (v : JSON)
    (hb : r.jsonBody = some v) (hv : v.isObj = false)
    (hlt : r.status < 400) (h204 : ¬ r.status = 204) :
    r.load = ⟨none, some (.unexpectedResponseContent
        ("Unexpected response received from server: " ++ r.text) 200)⟩ := by
  have hge : ¬ 400 ≤ r.status := by omega
  simp [Response.load, hb, hv, h204, Response.handle_error, Response.raise_for_status, hge]

/-- Witness for C5 (amended) at a concrete 200 response with an html body. -/
theorem c5_unexpected_content_witness :
    Response.load ⟨200, "OK", "/t", "<html>ok</html>", some (.str "<html>ok</html>")⟩
      = ⟨none, some (.unexpectedResponseContent
          ("Unexpected response received from server: " ++ "<html>ok</html>") 200)⟩ :=
  c5_unexpected_content _ (.str "<html>ok</html>") rfl rfl (by decide) (by decide)

/-- The envelope-validation tail of `load` assigns `data` exactly on its
non-raising branch. -/
theorem loadEnvelope_sets_iff (r : Response) (d : JSON) :
    (r.loadEnvelope d).data.isSome ↔ (r.loadEnvelope d).err = none := by
  unfold Response.loadEnvelope
  rcases h : contentSchemaLoad d with e | c
  · simp
  · rcases he : c.error with _ | ec
    · rcases hr : c.result with _ | x <;> simp [he, hr]
    · simp [he]

/-- C6: for every response, after `load` the `data` attribute is set if and
only if no exception was raised — every raising path leaves `data` unset. -/
theorem c6_data_iff_no_raise (r : Response) :
    r.load.data.isSome ↔ r.load.err = none := by
  unfold Response.load
  rcases hb : r.jsonBody with _ | d
  · simp
  · by_cases ho : d.isObj
    · simpa [ho] using loadEnvelope_sets_iff r d
    · by_cases h204 : r.status = 204
      · simp [ho, h204]
      · cases hh : r.handle_error with
        | error e => simp [ho, h204, hh]
        | ok u => simpa [ho, h204, hh] using loadEnvelope_sets_iff r d

/-- C7: `__len__` reports the list length when `data` is a sequence of
length N, and 1 when `data` is a mapping, an empty mapping included. -/
theorem c7_len (xs : List JSON) (kvs : List (String × JSON)) :
    Response.len (.arr xs) = xs.length ∧ Response.len (.obj kvs) = 1 :=
  ⟨rfl, rfl⟩

/-- C8: `__getitem__` delegates to subscripting `data`: a valid index returns
the list element and a valid key the mapped value, while an invalid index or
key raises exactly the error `data[k]` raises (`IndexError` out of range,
`KeyError` for a missing key). -/
theorem c8_getitem :
    (∀ d k, Response.getitem d k = pySubscript d k)
    ∧ (∀ (xs : List JSON) (i : Nat) v, xs[i]? = some v →
        Response.getitem (.arr xs) (.idx (i : Int)) = .ok v)
    ∧ (∀ (xs : List JSON) (i : Int),
        (xs.length : Int) ≤ i ∨ i < -(xs.length : Int) →
        Response.getitem (.arr xs) (.idx i) = .error .indexError)
    ∧ (∀ (kvs : List (String × JSON)) s v, kvs.lookup s = some v →
        Response.getitem (.obj kvs) (.key s) = .ok v)
    ∧ (∀ (kvs : List (String × JSON)) s, kvs.lookup s = none →
        Response.getitem (.obj kvs) (.key s) = .error (.keyError s)) := by
  refine ⟨fun d k => rfl, ?_, ?_, ?_, ?_⟩
  · intro xs i v hv
    have hlt : i < xs.length := (List.getElem?_eq_some.mp hv).1
    have hneg : ¬ ((i : Int) < 0) := by omega
    have hin : 0 ≤ (i : Int) ∧ (i : Int) < (xs.length : Int) := by omega
    simp only [Response.getitem, pySubscript, hneg, if_false, hin, if_true, Int.toNat_natCast]
    rw [List.getD_eq_getElem?_getD, hv]
    rfl
  · intro xs i hout
    rcases hout with hge | hlt
    · have hneg : ¬ (i < 0) := by omega
      have hin : ¬ (0 ≤ i ∧ i < (xs.length : Int)) := by omega
      simp only [Response.getitem, pySubscript, hneg, if_false, hin, if_true]
    · have hneg : i < 0 := by omega
      have hin : ¬ (0 ≤ i + (xs.length : Int) ∧ i + (xs.length : Int) < (xs.length : Int)) := by
        omega
      simp only [Response.getitem, pySubscript, hneg, if_true, hin, if_false]
  · intro kvs s v hv
    simp [Response.getitem, pySubscript, hv]
  · intro kvs s hv
    simp [Response.getitem, pySubscript, hv]

/-- Witness for C8 at concrete payloads: in-range and out-of-range indices,
present and missing keys. -/
theorem c8_getitem_witness :
    Response.getitem (.arr [.num 3, .num 4]) (.idx ((0 : Nat) : Int)) = .ok (.num 3)
    ∧ Response.getitem (.arr [.num 3, .num 4]) (.idx 5) = .error .indexError
    ∧ Response.getitem (.obj [("a", .num 7)]) (.key "a") = .ok (.num 7)
    ∧ Response.getitem (.obj [("a", .num 7)]) (.key "b") = .error (.keyError "b") :=
  ⟨c8_getitem.2.1 [.num 3, .num 4] 0 (.num 3) rfl,
   c8_getitem.2.2.1 [.num 3, .num 4] 5 (Or.inl (by decide)),
   c8_getitem.2.2.2.1 [("a", .num 7)] "a" (.num 7) rfl,
   c8_getitem.2.2.2.2 [("a", .num 7)] "b" rfl⟩

/-- C9 as stated is false: with `data` set to an empty mapping the content
summary is "Content: Unknown", not the dictionary summary; and with `data`
never assigned, `__repr__` raises `AttributeError` instead of reporting
"Unknown". -/
theorem c9_counterexample :
    contentOverview (.obj []) = "Content: Unknown"
    ∧ "Content: Unknown" ≠ "Content: Object contained in a dictionary"
    ∧ Response.reprStr ⟨200, "OK", "/t", "", none⟩ "0x0" none = .error .attributeError :=
  ⟨rfl, by decide, rfl⟩

/-- C9 (amended): `__repr__` on set `data` combines the class name, identity,
URL path, status, reason and a content overview that is "List of N items" for
a list of N elements, "Object contained in a dictionary" for a non-empty
mapping, and "Unknown" for an empty mapping; with `data` unset the attribute
read raises `AttributeError`. -/
theorem c9_repr (r : Response) (idHex : String) (d : JSON) :
    r.reprStr idHex (some d) = .ok ("<Response " ++ idHex ++ " " ++ r.urlPath ++ " ["
        ++ toString r.status ++ " " ++ r.reason ++ "] " ++ contentOverview d ++ ">")
    ∧ (∀ xs : List JSON,
        contentOverview (.arr xs) = "Content: List of " ++ toString xs.length ++ " items")
    ∧ (∀ kvs : List (String × JSON), kvs ≠ [] →
        contentOverview (.obj kvs) = "Content: Object contained in a dictionary")
    ∧ contentOverview (.obj []) = "Content: Unknown"
    ∧ r.reprStr idHex none = .error .attributeError := by
  refine ⟨rfl, fun xs => rfl, ?_, rfl, rfl⟩
  intro kvs h
  have : kvs.isEmpty = false := by
    cases kvs
    · exact absurd rfl h
    · rfl
  simp [contentOverview, JSON.truthy, JSON.isObj, this]

/-- Witness for C9 (amended) at a concrete non-empty mapping. -/
theorem c9_repr_witness :
    contentOverview (.obj [("a", .null)]) = "Content: Object contained in a dictionary" :=
  (c9_repr ⟨200, "OK", "/t", "", none⟩ "0x0" (.obj [("a", .null)])).2.2.1
    [("a", .null)] (List.cons_ne_nil _ _)

/-- C10: `_handle_error` never returns normally — on every response it raises
either `ServerError` or `UnexpectedResponseContent` — and `load` propagates
that exception whenever the parsed body is not a mapping and the status is
not 204, so the envelope validation after the call is never reached with a
non-mapping body. -/
theorem c10_handle_error_raises :
    (∀ r : Response, ∃ msg st,
        r.handle_error = .error (.serverError msg st)
        ∨ r.handle_error = .error (.unexpectedResponseContent msg st))
    ∧ (∀ (r : Response) (v : JSON), r.jsonBody = some v → v.isObj = false →
        ¬ r.status = 204 → ∃ e, r.handle_error = .error e ∧ r.load = ⟨none, some e⟩) := by
  constructor
  · intro r
    unfold Response.handle_error Response.raise_for_status
    by_cases h : 400 ≤ r.status
    · exact ⟨r.reason, r.status, Or.inl (by simp [h])⟩
    · exact ⟨"Unexpected response received from server: " ++ r.text, 200, Or.inr (by simp [h])⟩
  · intro r v hb hv h204
    cases hh : r.handle_error with
    | error e => exact ⟨e, rfl, by simp [Response.load, hb, hv, h204, hh]⟩
    | ok u =>
      unfold Response.handle_error at hh
      rcases hr : r.raise_for_status with e | w <;> rw [hr] at hh <;> exact Except.noConfusion hh

/-- Witness for C10 at a concrete 500 response with a plain-string body. -/
theorem c10_handle_error_raises_witness :
    ∃ e, Response.handle_error ⟨500, "Internal Server Error", "/t", "boom", some (.str "x")⟩
        = .error e
      ∧ Response.load ⟨500, "Internal Server Error", "/t", "boom", some (.str "x")⟩
        = ⟨none, some e⟩ :=
  c10_handle_error_raises.2 _ (.str "x") rfl rfl (by decide)

end Snowstorm
